import Mathlib

/-!
Shallow embedding of the ratings web application backend (Rust, axum + sqlite).

The sqlite database is modelled as a record of lists, one per table, and each
HTTP handler as a pure function from the database (plus the request data and a
`now` timestamp) to the updated database and an HTTP result.  Conventions:

* timestamps (`datetime('now')` strings in sqlite) are modelled as `Nat` time
  points, so that the text ordering used by `ORDER BY` on these columns becomes
  the numeric ordering;
* the `REAL` column `stars : f64` is modelled as `ℚ`; all star values the
  handlers compare against (multiples of 0.5, the 0.01 tolerance) are exactly
  representable in `f64` and the rounding error of the one subtraction involved
  is below the 0.01 tolerance, so the rational model decides the same branches;
* `Rust`'s `f64::round` (round half away from zero) is `roundHalfAway`;
* sqlite row lookups (`fetch_optional` / `fetch_one` by a key) are `List.find?`;
  `rows_affected` of an `UPDATE`/`DELETE` is the length of the matching filter;
* sqlite `ON DELETE CASCADE` child deletion (sqlx enables foreign keys) is made
  explicit in the deleting handlers;
* activity logging (`log_activity`, fire-and-forget, result discarded with
  `.ok()`) and the background invitation e-mail never influence a response or a
  table read by the handlers below, so they are not part of the state;
* `ORDER BY` is modelled with `List.insertionSort`, a stable sort; sqlite does
  not promise any particular order among ties, and no claim depends on one.
-/

namespace App

instance {ε α : Type} [DecidableEq ε] [DecidableEq α] :
    DecidableEq (Except ε α) := fun x y =>
  match x, y with
  | .error a, .error b =>
    if h : a = b then .isTrue (by rw [h])
    else .isFalse (by intro hh; cases hh; exact h rfl)
  | .error _, .ok _ => .isFalse (by intro hh; cases hh)
  | .ok _, .error _ => .isFalse (by intro hh; cases hh)
  | .ok a, .ok b =>
    if h : a = b then .isTrue (by rw [h])
    else .isFalse (by intro hh; cases hh; exact h rfl)

/-- HTTP status codes used by the handlers (axum `StatusCode`). -/
inductive StatusCode where
  | ok
  | created
  | noContent
  | badRequest
  | unauthorized
  | forbidden
  | notFound
  | conflict
  | gone
  | internalServerError
deriving DecidableEq, Repr

/-- The two `AppError` variants reachable from `upload_media` (src/backend/src/error.rs). -/
inductive AppError where
  | badRequest (msg : String)
  | internalServerError (msg : String)
deriving DecidableEq, Repr

/-- Row of `categories`. -/
structure Category where
  id : Int
  name : String
  media_type : String
deriving DecidableEq, Repr

/-- Row of `media_files`. -/
structure MediaFile where
  id : Int
  filename : String
  file_path : String
  media_type : String
  mime_type : String
  uploaded_at : Nat
deriving DecidableEq, Repr

/-- Row of `tests`. -/
structure Test where
  id : Int
  name : String
  description : Option String
  created_at : Nat
  status : String
  created_by : Option String
  loop_media : Bool
deriving DecidableEq, Repr

/-- Row of `test_users` (participant session). -/
structure TestUser where
  id : Int
  test_id : Int
  email : String
  one_time_token : String
  accessed_at : Option Nat
  completed_at : Option Nat
deriving DecidableEq, Repr

/-- Row of `ratings`. -/
structure Rating where
  id : Int
  test_user_id : Int
  media_file_id : Int
  stars : ℚ
  comment : Option String
  rated_at : Nat
deriving DecidableEq, Repr

/-- Row of the `media_file_categories` junction table. -/
structure MediaFileCategory where
  media_file_id : Int
  category_id : Int
deriving DecidableEq, Repr

/-- Row of the `test_categories` junction table. -/
structure TestCategory where
  test_id : Int
  category_id : Int
deriving DecidableEq, Repr

/-- The sqlite database: one list per table (admins and activity logs are not
read by any handler modelled here). -/
structure DB where
  tests : List Test
  testUsers : List TestUser
  categories : List Category
  mediaFiles : List MediaFile
  mediaFileCategories : List MediaFileCategory
  testCategories : List TestCategory
  ratings : List Rating
deriving DecidableEq, Repr

/-- JWT claims attached by the auth middleware (models/mod.rs `Claims`). -/
structure Claims where
  sub : String
  exp : Nat
  is_super_admin : Bool
deriving DecidableEq, Repr

/-- Request body of `submit_rating` (models/mod.rs `RatingRequest`). -/
structure RatingRequest where
  media_file_id : Int
  stars : ℚ
  comment : Option String
deriving DecidableEq, Repr

/-- Response of `get_test_by_token` (models/mod.rs `TestDetailsResponse`). -/
structure TestDetailsResponse where
  test : Test
  media_files : List MediaFile
deriving DecidableEq, Repr

/-- One aggregated row of the test results (models/mod.rs `MediaFileStats`). -/
structure MediaFileStats where
  media_file : MediaFile
  average_stars : ℚ
  total_ratings : Nat
deriving DecidableEq, Repr

/-- One individual rating joined with its participant and media file
(models/mod.rs `RatingWithUser`). -/
structure RatingWithUser where
  rating : Rating
  user_email : String
  media_file : MediaFile
deriving DecidableEq, Repr

/-- Response of `get_test_results` (models/mod.rs `TestResultsResponse`). -/
structure TestResultsResponse where
  test : Test
  aggregated : List MediaFileStats
  individual : List RatingWithUser
deriving DecidableEq, Repr

/-- Ordering used by `ORDER BY mf.uploaded_at` (ascending). -/
def uploadedLE (a b : MediaFile) : Prop :=
  a.uploaded_at ≤ b.uploaded_at

instance : DecidableRel uploadedLE := fun a b =>
  inferInstanceAs (Decidable (a.uploaded_at ≤ b.uploaded_at))

instance : IsTotal MediaFile uploadedLE :=
  ⟨fun a b => Nat.le_total a.uploaded_at b.uploaded_at⟩

instance : IsTrans MediaFile uploadedLE :=
  ⟨fun _ _ _ hab hbc => le_trans hab hbc⟩

/-- Ordering used by `ORDER BY avg_stars DESC`. -/
def avgStarsGE (a b : MediaFileStats) : Prop :=
  b.average_stars ≤ a.average_stars

instance : DecidableRel avgStarsGE := fun a b =>
  inferInstanceAs (Decidable (b.average_stars ≤ a.average_stars))

instance : IsTotal MediaFileStats avgStarsGE :=
  ⟨fun a b => (le_total b.average_stars a.average_stars : _ ∨ _)⟩

instance : IsTrans MediaFileStats avgStarsGE :=
  ⟨fun _ _ _ hab hbc => le_trans hbc hab⟩

/-- Ordering used by `ORDER BY r.rated_at DESC`. -/
def ratedAtGE (a b : RatingWithUser) : Prop :=
  b.rating.rated_at ≤ a.rating.rated_at

instance : DecidableRel ratedAtGE := fun a b =>
  inferInstanceAs (Decidable (b.rating.rated_at ≤ a.rating.rated_at))

instance : IsTotal RatingWithUser ratedAtGE :=
  ⟨fun a b => Nat.le_total b.rating.rated_at a.rating.rated_at⟩

instance : IsTrans RatingWithUser ratedAtGE :=
  ⟨fun _ _ _ hab hbc => le_trans hbc hab⟩

/-- Rust `f64::round`: rounds half-way cases away from zero. -/
def roundHalfAway (q : ℚ) : Int :=
  if 0 ≤ q then (q + 1/2).floor else (q - 1/2).ceil

/-- The media files linked to a test through its category, before sorting:

`SELECT DISTINCT mf.* FROM media_files mf INNER JOIN media_file_categories mfc
ON mf.id = mfc.media_file_id INNER JOIN test_categories tc ON mfc.category_id =
tc.category_id WHERE tc.test_id = ?` (user.rs lines 64-72; `media_files.id` is
the primary key, so `DISTINCT` keeps each media-file row once however many
join pairs link it to the test). -/
def linkedMediaFiles (db : DB) (test_id : Int) : List MediaFile :=
  db.mediaFiles.filter (fun mf =>
    db.mediaFileCategories.any (fun mc =>
      mc.media_file_id == mf.id &&
        db.testCategories.any (fun tc =>
          tc.test_id == test_id && tc.category_id == mc.category_id)))

/-- `UPDATE test_users SET accessed_at = datetime(now) WHERE id = ? AND
accessed_at IS NULL` (user.rs line 30). -/
def stampAccessed (db : DB) (now : Nat) (tu_id : Int) : DB :=
  { db with testUsers := db.testUsers.map (fun u =>
      if u.id == tu_id && u.accessed_at == none then
        { u with accessed_at := some now }
      else u) }

/-- Handler `get_test_by_token` (user.rs lines 9-80).  Returns the final
database (the `accessed_at` stamp persists even when a later check fails)
together with the HTTP result. -/
def get_test_by_token (db : DB) (now : Nat) (token : String) :
    DB × Except StatusCode TestDetailsResponse :=
  match db.testUsers.find? (fun u => u.one_time_token == token) with
  | none => (db, .error .notFound)
  | some tu =>
    if tu.completed_at.isSome then
      (db, .error .gone)
    else
      let db1 := stampAccessed db now tu.id
      match db1.tests.find? (fun t => t.id == tu.test_id) with
      | none => (db1, .error .notFound)
      | some test =>
        if test.status = "closed" then
          (db1, .error .forbidden)
        else
          (db1, .ok { test := test,
                      media_files :=
                        List.insertionSort uploadedLE
                          (linkedMediaFiles db1 tu.test_id) })

/-- `INSERT INTO ratings ... ON CONFLICT(test_user_id, media_file_id) DO
UPDATE SET stars = excluded.stars, comment = excluded.comment, rated_at =
datetime(now)` (user.rs lines 121-135).  A fresh row gets the next rowid
`new_id` and `rated_at` defaults to `now`. -/
def upsertRating (rs : List Rating) (tu_id : Int) (payload : RatingRequest)
    (new_id : Int) (now : Nat) : List Rating :=
  if rs.any (fun r =>
      r.test_user_id == tu_id && r.media_file_id == payload.media_file_id) then
    rs.map (fun r =>
      if r.test_user_id == tu_id && r.media_file_id == payload.media_file_id then
        { r with stars := payload.stars, comment := payload.comment,
                 rated_at := now }
      else r)
  else
    rs ++ [{ id := new_id, test_user_id := tu_id,
             media_file_id := payload.media_file_id, stars := payload.stars,
             comment := payload.comment, rated_at := now }]

/-- Handler `submit_rating` (user.rs lines 82-166). -/
def submit_rating (db : DB) (now : Nat) (new_id : Int) (token : String)
    (payload : RatingRequest) : DB × Except StatusCode Rating :=
  match db.testUsers.find? (fun u => u.one_time_token == token) with
  | none => (db, .error .unauthorized)
  | some tu =>
    match db.tests.find? (fun t => t.id == tu.test_id) with
    | none => (db, .error .internalServerError)
    | some test =>
      if test.status = "closed" then
        (db, .error .forbidden)
      else if payload.stars < 0 ∨ payload.stars > 5 then
        (db, .error .badRequest)
      else if |((roundHalfAway (payload.stars * 2) : ℚ)) / 2 - payload.stars|
          > 1/100 then
        (db, .error .badRequest)
      else
        let db1 : DB :=
          { db with ratings := upsertRating db.ratings tu.id payload new_id now }
        match db1.ratings.find? (fun r =>
            r.test_user_id == tu.id &&
              r.media_file_id == payload.media_file_id) with
        | none => (db1, .error .internalServerError)
        | some rating => (db1, .ok rating)

/-- Handler `complete_test` (user.rs lines 194-236): stamps `completed_at`
unconditionally for the row(s) with this token. -/
def complete_test (db : DB) (now : Nat) (token : String) :
    DB × Except StatusCode StatusCode :=
  match db.testUsers.find? (fun u => u.one_time_token == token) with
  | none => (db, .error .notFound)
  | some _ =>
    let db1 : DB := { db with testUsers := db.testUsers.map (fun u =>
      if u.one_time_token == token then { u with completed_at := some now }
      else u) }
    let affected :=
      (db.testUsers.filter (fun u => u.one_time_token == token)).length
    if affected == 0 then (db1, .error .notFound)
    else (db1, .ok .noContent)

/-- Handler `delete_test` (tests.rs lines 212-262).  The single `DELETE FROM
tests` cascades through the foreign keys to `test_categories`, `test_users`
and (via `test_users`) `ratings`. -/
def delete_test (db : DB) (claims : Claims) (test_id : Int) :
    DB × Except StatusCode StatusCode :=
  match db.tests.find? (fun t => t.id == test_id) with
  | none => (db, .error .notFound)
  | some test =>
    if claims.is_super_admin || test.created_by == some claims.sub then
      let affected := (db.tests.filter (fun t => t.id == test_id)).length
      let db1 : DB :=
        { db with
          tests := db.tests.filter (fun t => !(t.id == test_id)),
          testCategories :=
            db.testCategories.filter (fun tc => !(tc.test_id == test_id)),
          testUsers := db.testUsers.filter (fun u => !(u.test_id == test_id)),
          ratings := db.ratings.filter (fun r =>
            !((db.testUsers.filter (fun u => u.test_id == test_id)).any
              (fun u => u.id == r.test_user_id))) }
      if affected == 0 then (db1, .error .notFound)
      else (db1, .ok .noContent)
    else
      (db, .error .forbidden)

/-- Handler `delete_test_user` (tests.rs lines 264-329).  Deleting the
participant cascades to their ratings. -/
def delete_test_user (db : DB) (test_id user_id : Int) :
    DB × Except StatusCode StatusCode :=
  match db.tests.find? (fun t => t.id == test_id) with
  | none => (db, .error .notFound)
  | some test =>
    if test.status = "closed" then
      (db, .error .forbidden)
    else
      match db.testUsers.find? (fun u =>
          u.id == user_id && u.test_id == test_id) with
      | none => (db, .error .notFound)
      | some _ =>
        let db1 : DB :=
          { db with
            testUsers := db.testUsers.filter (fun u =>
              !(u.id == user_id && u.test_id == test_id)),
            ratings := db.ratings.filter (fun r =>
              !(r.test_user_id == user_id)) }
        (db1, .ok .noContent)

/-- All `ratings` rows for a media file, from any test: the aggregate query of
`get_test_results` joins `LEFT JOIN ratings r ON r.media_file_id = mf.id` with
no further restriction on `r` (tests.rs line 352); the subsequent `LEFT JOIN
test_users tu ON r.test_user_id = tu.id AND tu.test_id = ?` (line 353) can only
attach `tu` columns or leave them NULL — it never removes an `r` row. -/
def fileRatings (db : DB) (mf_id : Int) : List Rating :=
  db.ratings.filter (fun r => r.media_file_id == mf_id)

/-- Number of (media_file_categories × test_categories) join pairs linking a
media file to a test; each rating row of the file is duplicated this many
times before `GROUP BY mf.id`. -/
def linkPairCount (db : DB) (test_id mf_id : Int) : Nat :=
  ((db.mediaFileCategories.filter (fun mc => mc.media_file_id == mf_id)).map
    (fun mc => (db.testCategories.filter (fun tc =>
      tc.test_id == test_id && tc.category_id == mc.category_id)).length)).sum

/-- One `GROUP BY mf.id` output row of the aggregate query of
`get_test_results` (tests.rs lines 343-363): `COALESCE(AVG(r.stars), 0)` and
`COUNT(r.id)` over the joined rows of the group. -/
def aggregateFor (db : DB) (test_id : Int) (mf : MediaFile) : MediaFileStats :=
  let rs := fileRatings db mf.id
  { media_file := mf,
    average_stars :=
      if rs.length = 0 then 0 else (rs.map Rating.stars).sum / (rs.length : ℚ),
    total_ratings := linkPairCount db test_id mf.id * rs.length }

/-- The individual-ratings query of `get_test_results` (tests.rs lines
382-396): ratings of this test's participants joined with the participant
e-mail and the media file, newest first. -/
def individualRatings (db : DB) (test_id : Int) : List RatingWithUser :=
  List.insertionSort ratedAtGE
    (db.ratings.filterMap (fun r =>
      match db.testUsers.find? (fun tu =>
          tu.id == r.test_user_id && tu.test_id == test_id),
        db.mediaFiles.find? (fun mf => mf.id == r.media_file_id) with
      | some tu, some mf => some { rating := r, user_email := tu.email,
                                   media_file := mf }
      | _, _ => none))

/-- Handler `get_test_results` (tests.rs lines 331-426). -/
def get_test_results (db : DB) (test_id : Int) :
    Except StatusCode TestResultsResponse :=
  match db.tests.find? (fun t => t.id == test_id) with
  | none => .error .notFound
  | some test =>
    .ok { test := test,
          aggregated :=
            List.insertionSort avgStarsGE
              ((linkedMediaFiles db test_id).map (aggregateFor db test_id)),
          individual := individualRatings db test_id }

/-- Rust `str::starts_with`, expressed on the character sequences of the two
strings (extensionally `String.startsWith`, but computable by the kernel). -/
def strStartsWith (s p : String) : Bool :=
  p.data.isPrefixOf s.data

/-- `determine_media_type` (media.rs lines 19-31). -/
def determine_media_type (mime_type : String) : String :=
  if strStartsWith mime_type "audio/" then "audio"
  else if strStartsWith mime_type "video/" then "video"
  else if strStartsWith mime_type "image/" then "image"
  else if strStartsWith mime_type "text/" then "text"
  else "other"

/-- A parsed multipart field of the upload request: the `category_ids` field
carries the ids that survived `split(',') ... parse::<i64>().ok()`, a `file`
field carries its (optional) client file name and content type, and any other
field name is skipped by the loop. -/
inductive MultipartField where
  | category_ids (ids : List Int)
  | file (filename : Option String) (content_type : String)
  | other
deriving DecidableEq, Repr

/-- Mutable state of the `upload_media` field loop (media.rs lines 45-48):
the database so far, the ids seen in the last `category_ids` field, the number
of files stored, the next media-file rowid, and the clock. -/
structure UploadState where
  db : DB
  category_ids : List Int
  files_uploaded : Nat
  next_id : Int
  now : Nat
deriving DecidableEq, Repr

/-- The per-file category checks of `upload_media` (media.rs lines 92-115),
returning the first failure in the order the ids were supplied. -/
def checkCategories (db : DB) (ids : List Int) (file_media_type : String)
    (filename : String) : Option AppError :=
  match ids with
  | [] => none
  | cat_id :: rest =>
    match db.categories.find? (fun c => c.id == cat_id) with
    | none => some (.badRequest s!"Category with id {cat_id} does not exist")
    | some category =>
      if file_media_type ≠ category.media_type then
        let cmt := category.media_type
        some (.badRequest
          s!"Cannot upload {file_media_type} files to a {cmt}-only category (id {cat_id}). File \x27{filename}\x27 is type \x27{file_media_type}\x27.")
      else
        checkCategories db rest file_media_type filename

/-- The multipart loop of `upload_media` (media.rs lines 50-192).  A `return
Err` in the Rust handler aborts the whole request but the database writes
already executed stay committed, so the state reached so far is returned next
to the error.  The stored blob's generated unique disk name is abstracted by
the fresh rowid. -/
def upload_media_go (st : UploadState) :
    List MultipartField → UploadState × Except AppError StatusCode
  | [] =>
    if st.files_uploaded > 0 then (st, .ok .created)
    else (st, .error (.badRequest "No files were uploaded"))
  | .category_ids ids :: rest =>
    if ids.isEmpty then
      (st, .error (.badRequest "At least one valid category_id is required"))
    else
      upload_media_go { st with category_ids := ids } rest
  | .file filename? content_type :: rest =>
    match filename? with
    | none => (st, .error (.badRequest "File field missing filename"))
    | some filename =>
      if st.category_ids.isEmpty then
        (st, .error
          (.badRequest "category_ids must be provided before file fields"))
      else
        match checkCategories st.db st.category_ids
            (determine_media_type content_type) filename with
        | some e => (st, .error e)
        | none =>
          let file_media_type := determine_media_type content_type
          let mf : MediaFile :=
            { id := st.next_id, filename := filename,
              file_path := s!"uploads/{st.next_id}",
              media_type := file_media_type, mime_type := content_type,
              uploaded_at := st.now }
          let links := st.category_ids.map (fun cat_id =>
            { media_file_id := st.next_id,
              category_id := cat_id : MediaFileCategory })
          upload_media_go
            { st with
              db := { st.db with
                      mediaFiles := st.db.mediaFiles ++ [mf],
                      mediaFileCategories :=
                        st.db.mediaFileCategories ++ links },
              files_uploaded := st.files_uploaded + 1,
              next_id := st.next_id + 1 }
            rest
  | .other :: rest => upload_media_go st rest

/-- Handler `upload_media` (media.rs lines 33-193). -/
def upload_media (db : DB) (now : Nat) (next_id : Int)
    (fields : List MultipartField) : DB × Except AppError StatusCode :=
  let (st, res) := upload_media_go
    { db := db, category_ids := [], files_uploaded := 0, next_id := next_id,
      now := now } fields
  (st.db, res)

/-! ### Concrete fixtures for witnesses and counterexamples -/

/-- An audio category. -/
def exCategory : Category := { id := 10, name := "Rock", media_type := "audio" }

/-- A media file in category 10, uploaded at time 1. -/
def exMediaLinked : MediaFile :=
  { id := 100, filename := "song.mp3", file_path := "uploads/100",
    media_type := "audio", mime_type := "audio/mpeg", uploaded_at := 1 }

/-- A second media file in category 10, uploaded earlier (time 0). -/
def exMediaEarlier : MediaFile :=
  { id := 101, filename := "tune.mp3", file_path := "uploads/101",
    media_type := "audio", mime_type := "audio/mpeg", uploaded_at := 0 }

/-- A media file that is in no category at all. -/
def exMediaUnlinked : MediaFile :=
  { id := 999, filename := "loose.mp3", file_path := "uploads/999",
    media_type := "audio", mime_type := "audio/mpeg", uploaded_at := 2 }

/-- An open test bound to category 10, created by alice. -/
def exTestOpen : Test :=
  { id := 1, name := "T1", description := none, created_at := 0,
    status := "open", created_by := some "alice", loop_media := true }

/-- A closed test bound to category 10. -/
def exTestClosed : Test :=
  { id := 2, name := "T2", description := none, created_at := 0,
    status := "closed", created_by := some "alice", loop_media := true }

/-- A participant of the open test who has not completed. -/
def exUserOpen : TestUser :=
  { id := 1, test_id := 1, email := "a@x.com", one_time_token := "t1",
    accessed_at := none, completed_at := none }

/-- A participant of the closed test who never completed. -/
def exUserClosed : TestUser :=
  { id := 2, test_id := 2, email := "b@x.com", one_time_token := "t2",
    accessed_at := none, completed_at := none }

/-- A participant of the open test whose session is already completed. -/
def exUserDone : TestUser :=
  { id := 3, test_id := 1, email := "c@x.com", one_time_token := "t3",
    accessed_at := some 1, completed_at := some 2 }

/-- The database most witnesses run against. -/
def exDB : DB :=
  { tests := [exTestOpen, exTestClosed],
    testUsers := [exUserOpen, exUserClosed, exUserDone],
    categories := [exCategory],
    mediaFiles := [exMediaLinked, exMediaEarlier, exMediaUnlinked],
    mediaFileCategories := [{ media_file_id := 100, category_id := 10 },
                            { media_file_id := 101, category_id := 10 }],
    testCategories := [{ test_id := 1, category_id := 10 },
                       { test_id := 2, category_id := 10 }],
    ratings := [] }

/-- Two open tests sharing category 10 and hence media file 100: the
participant of test 1 rated it 5 stars, the participant of test 2 rated it 1
star. -/
def dbLeak : DB :=
  { tests := [exTestOpen,
              { id := 2, name := "T2", description := none, created_at := 0,
                status := "open", created_by := some "alice",
                loop_media := true }],
    testUsers := [{ id := 1, test_id := 1, email := "a@x.com",
                    one_time_token := "k1", accessed_at := some 1,
                    completed_at := none },
                  { id := 2, test_id := 2, email := "b@x.com",
                    one_time_token := "k2", accessed_at := some 1,
                    completed_at := none }],
    categories := [exCategory],
    mediaFiles := [exMediaLinked],
    mediaFileCategories := [{ media_file_id := 100, category_id := 10 }],
    testCategories := [{ test_id := 1, category_id := 10 },
                       { test_id := 2, category_id := 10 }],
    ratings := [{ id := 1, test_user_id := 1, media_file_id := 100, stars := 5,
                  comment := none, rated_at := 3 },
                { id := 2, test_user_id := 2, media_file_id := 100, stars := 1,
                  comment := none, rated_at := 4 }] }

/-- A super admin requester. -/
def claimsSuper : Claims := { sub := "root", exp := 0, is_super_admin := true }

/-- A non-super-admin requester who did not create `exTestOpen`. -/
def claimsBob : Claims := { sub := "bob", exp := 0, is_super_admin := false }

/-- A database holding just one audio category, for the upload batch. -/
def dbCats : DB :=
  { tests := [], testUsers := [],
    categories := [{ id := 1, name := "Rock", media_type := "audio" }],
    mediaFiles := [], mediaFileCategories := [], testCategories := [],
    ratings := [] }

/-- An upload batch whose second file mismatches the category: an audio file,
then an image, then another audio file. -/
def mismatchFields : List MultipartField :=
  [.category_ids [1],
   .file (some "a.mp3") "audio/mpeg",
   .file (some "b.png") "image/png",
   .file (some "c.mp3") "audio/mpeg"]

/-! ### Theorems -/

attribute [local semireducible] Rat.add Rat.mul Rat.inv Rat.sub Rat.ofScientific

/-- A failing category check always carries a BadRequest error. -/
theorem checkCategories_badRequest (db : DB) (ids : List Int)
    (fmt fname : String) (e : AppError)
    (h : checkCategories db ids fmt fname = some e) :
    ∃ msg, e = .badRequest msg := by
  induction ids with
  | nil => simp [checkCategories] at h
  | cons c rest ih =>
    cases hc : db.categories.find? (fun cat => cat.id == c) with
    | none =>
      simp only [checkCategories, hc] at h
      exact ⟨_, (Option.some_inj.mp h).symm⟩
    | some cat =>
      simp only [checkCategories, hc] at h
      by_cases hm : fmt ≠ cat.media_type
      · rw [if_pos hm] at h
        exact ⟨_, (Option.some_inj.mp h).symm⟩
      · rw [if_neg hm] at h
        exact ih h

/-- C1 (the code violates the claim): `get_test_results` does not restrict the
aggregated ratings to participants of the requested test.  In `dbLeak`, test
1's only participant rated media file 100 with 5 stars and a participant of
the unrelated test 2 rated the same file 1 star; the claim demands
average_stars = 5 and total_ratings = 1 for test 1, but the handler reports
average_stars = 3 over total_ratings = 2, because its
`LEFT JOIN test_users tu ON r.test_user_id = tu.id AND tu.test_id = ?` can
never drop a rating row. -/
theorem get_test_results_mixes_other_tests_ratings :
    (get_test_results dbLeak 1).map (fun resp =>
        resp.aggregated.map (fun s =>
          (s.media_file.id, s.average_stars, s.total_ratings))) =
      .ok [(100, 3, 2)] ∧
    (dbLeak.ratings.filter (fun r =>
        r.media_file_id == 100 &&
          dbLeak.testUsers.any (fun u =>
            u.id == r.test_user_id && u.test_id == 1))).map Rating.stars =
      [5] := by
  constructor
  · decide
  · decide

/-- Any row of the upserted ratings list that matches the upsert key carries
the submitted stars, comment and timestamp. -/
theorem upsertRating_mem_key (rs : List Rating) (tu_id : Int)
    (payload : RatingRequest) (new_id : Int) (now : Nat) (r : Rating)
    (hmem : r ∈ upsertRating rs tu_id payload new_id now)
    (hkey : (r.test_user_id == tu_id &&
      r.media_file_id == payload.media_file_id) = true) :
    r.stars = payload.stars ∧ r.comment = payload.comment ∧
      r.rated_at = now := by
  rw [upsertRating] at hmem
  split at hmem
  case isTrue h =>
    rcases List.mem_map.mp hmem with ⟨x, hx, hfx⟩
    by_cases hpx : (x.test_user_id == tu_id &&
        x.media_file_id == payload.media_file_id) = true
    · rw [if_pos hpx] at hfx
      cases hfx
      exact ⟨rfl, rfl, rfl⟩
    · rw [if_neg hpx] at hfx
      exact absurd (hfx ▸ hkey) hpx
  case isFalse h =>
    rcases List.mem_append.mp hmem with hmem | hmem
    · exact absurd (List.any_eq_true.mpr ⟨r, hmem, hkey⟩) h
    · cases List.mem_singleton.mp hmem
      exact ⟨rfl, rfl, rfl⟩

/-- After an upsert, a lookup by the upsert key finds a row. -/
theorem upsertRating_find?_isSome (rs : List Rating) (tu_id : Int)
    (payload : RatingRequest) (new_id : Int) (now : Nat) :
    ((upsertRating rs tu_id payload new_id now).find? (fun r =>
      r.test_user_id == tu_id &&
        r.media_file_id == payload.media_file_id)).isSome = true := by
  rw [List.find?_isSome, upsertRating]
  split
  case isTrue h =>
    rcases List.any_eq_true.mp h with ⟨x, hx, hpx⟩
    refine ⟨_, List.mem_map.mpr ⟨x, hx, rfl⟩, ?_⟩
    rw [if_pos hpx]
    exact hpx
  case isFalse h =>
    exact ⟨_, List.mem_append.mpr (Or.inr (List.mem_singleton.mpr rfl)),
      by simp⟩

/-- With a known token and an open test, a valid star value makes
`submit_rating` succeed: the only change to the database is the ratings
upsert, and the returned row carries the submitted values. -/
theorem submit_rating_success (db : DB) (now : Nat) (new_id : Int)
    (token : String) (payload : RatingRequest) (tu : TestUser) (test : Test)
    (hfind : db.testUsers.find? (fun u => u.one_time_token == token) = some tu)
    (htest : db.tests.find? (fun t => t.id == tu.test_id) = some test)
    (hopen : test.status ≠ "closed")
    (h0 : 0 ≤ payload.stars) (h5 : payload.stars ≤ 5)
    (hstep : |((roundHalfAway (payload.stars * 2) : ℚ)) / 2 - payload.stars|
      ≤ 1/100) :
    ∃ r, submit_rating db now new_id token payload =
      ({ db with ratings := upsertRating db.ratings tu.id payload new_id now },
        .ok r) ∧
      r.stars = payload.stars ∧ r.comment = payload.comment ∧
      r.rated_at = now := by
  have hrange : ¬(payload.stars < 0 ∨ payload.stars > 5) := fun hc =>
    hc.elim (fun hlt => absurd hlt (not_lt.mpr h0))
      (fun hgt => absurd hgt (not_lt.mpr h5))
  have hs : ¬(|((roundHalfAway (payload.stars * 2) : ℚ)) / 2 - payload.stars|
      > 1/100) := not_lt.mpr hstep
  simp only [submit_rating, hfind, htest, if_neg hopen, if_neg hrange,
    if_neg hs]
  obtain ⟨r0, hr0⟩ := Option.isSome_iff_exists.mp
    (upsertRating_find?_isSome db.ratings tu.id payload new_id now)
  have hkey : (r0.test_user_id == tu.id &&
      r0.media_file_id == payload.media_file_id) = true :=
    @List.find?_some Rating
      (fun r => r.test_user_id == tu.id &&
        r.media_file_id == payload.media_file_id)
      r0 (upsertRating db.ratings tu.id payload new_id now) hr0
  have hvals := upsertRating_mem_key db.ratings tu.id payload new_id now r0
    (List.mem_of_find?_eq_some hr0) hkey
  rw [hr0]
  exact ⟨r0, rfl, hvals⟩

/-- With a known token whose parent test is closed, `submit_rating` rejects
with Forbidden and leaves the database unchanged. -/
theorem submit_rating_closed (db : DB) (now : Nat) (new_id : Int)
    (token : String) (payload : RatingRequest) (tu : TestUser) (test : Test)
    (hfind : db.testUsers.find? (fun u => u.one_time_token == token) = some tu)
    (htest : db.tests.find? (fun t => t.id == tu.test_id) = some test)
    (hclosed : test.status = "closed") :
    submit_rating db now new_id token payload = (db, .error .forbidden) := by
  simp only [submit_rating, hfind, htest, if_pos hclosed]

/-- C3: with a known token and an open parent test, `submit_rating` accepts a
stars value s iff 0 ≤ s ≤ 5 and s doubled, rounded (half away from zero) and
halved again differs from s by at most 0.01; any other s is rejected with
BadRequest. -/
theorem submit_rating_stars_validation (db : DB) (now : Nat) (new_id : Int)
    (token : String) (payload : RatingRequest) (tu : TestUser) (test : Test)
    (hfind : db.testUsers.find? (fun u => u.one_time_token == token) = some tu)
    (htest : db.tests.find? (fun t => t.id == tu.test_id) = some test)
    (hopen : test.status ≠ "closed") :
    ((∃ r, (submit_rating db now new_id token payload).2 = .ok r) ↔
      (0 ≤ payload.stars ∧ payload.stars ≤ 5 ∧
        |((roundHalfAway (payload.stars * 2) : ℚ)) / 2 - payload.stars|
          ≤ 1/100)) ∧
    (¬(0 ≤ payload.stars ∧ payload.stars ≤ 5 ∧
        |((roundHalfAway (payload.stars * 2) : ℚ)) / 2 - payload.stars|
          ≤ 1/100) →
      (submit_rating db now new_id token payload).2 = .error .badRequest) := by
  have herr : ¬(0 ≤ payload.stars ∧ payload.stars ≤ 5 ∧
      |((roundHalfAway (payload.stars * 2) : ℚ)) / 2 - payload.stars|
        ≤ 1/100) →
      (submit_rating db now new_id token payload).2 = .error .badRequest := by
    intro h
    by_cases hrange : payload.stars < 0 ∨ payload.stars > 5
    · simp only [submit_rating, hfind, htest, if_neg hopen, if_pos hrange]
    · push_neg at hrange
      have htol : ¬(|((roundHalfAway (payload.stars * 2) : ℚ)) / 2 -
          payload.stars| ≤ 1/100) := fun hle =>
        h ⟨hrange.1, hrange.2, hle⟩
      have hrange2 : ¬(payload.stars < 0 ∨ payload.stars > 5) := fun hc =>
        hc.elim (fun hlt => absurd hlt (not_lt.mpr hrange.1))
          (fun hgt => absurd hgt (not_lt.mpr hrange.2))
      simp only [submit_rating, hfind, htest, if_neg hopen, if_neg hrange2,
        if_pos (not_le.mp htol)]
  refine ⟨⟨?_, ?_⟩, herr⟩
  · intro ⟨r, hr⟩
    by_contra hnv
    rw [herr hnv] at hr
    cases hr
  · intro hv
    obtain ⟨r, hr, -⟩ := submit_rating_success db now new_id token payload tu
      test hfind htest hopen hv.1 hv.2.1 hv.2.2
    exact ⟨r, by rw [hr]⟩

/-- Witness for C3: for the participant token t1 of the open test, 3.5 stars
are accepted while 3.3, 5.5 and -0.5 are rejected with BadRequest. -/
theorem submit_rating_stars_validation_witness :
    (∃ r, (submit_rating exDB 5 50 "t1"
        { media_file_id := 100, stars := 7/2, comment := none }).2 = .ok r) ∧
    (submit_rating exDB 5 51 "t1"
        { media_file_id := 100, stars := 33/10, comment := none }).2 =
      .error .badRequest ∧
    (submit_rating exDB 5 52 "t1"
        { media_file_id := 100, stars := 11/2, comment := none }).2 =
      .error .badRequest ∧
    (submit_rating exDB 5 53 "t1"
        { media_file_id := 100, stars := -(1/2), comment := none }).2 =
      .error .badRequest := by
  refine ⟨?_, ?_, ?_, ?_⟩
  · exact (submit_rating_stars_validation exDB 5 50 "t1" _ exUserOpen
      exTestOpen rfl rfl (by decide)).1.mpr (by decide)
  · exact (submit_rating_stars_validation exDB 5 51 "t1" _ exUserOpen
      exTestOpen rfl rfl (by decide)).2 (by decide)
  · exact (submit_rating_stars_validation exDB 5 52 "t1" _ exUserOpen
      exTestOpen rfl rfl (by decide)).2 (by decide)
  · exact (submit_rating_stars_validation exDB 5 53 "t1" _ exUserOpen
      exTestOpen rfl rfl (by decide)).2 (by decide)

/-- C2 (amended): when one of the category checks fails for a file, the whole
request is rejected with that file's descriptive BadRequest error; the
database keeps exactly the files already stored earlier in the batch (the
state reached so far is returned unchanged) and no later field of the batch is
processed. -/
theorem upload_media_mismatch_aborts_request (st : UploadState)
    (filename content_type : String) (rest : List MultipartField) (e : AppError)
    (hne : st.category_ids ≠ [])
    (hchk : checkCategories st.db st.category_ids
        (determine_media_type content_type) filename = some e) :
    upload_media_go st (.file (some filename) content_type :: rest) =
      (st, .error e) ∧ ∃ msg, e = .badRequest msg := by
  refine ⟨?_, checkCategories_badRequest _ _ _ _ _ hchk⟩
  have hem : st.category_ids.isEmpty = false := by
    cases h : st.category_ids with
    | nil => exact absurd h hne
    | cons a l => rfl
  simp [upload_media_go, hem, hchk]

/-- Witness for the amended C2 theorem at a concrete mid-batch state. -/
theorem upload_media_mismatch_aborts_request_witness :
    upload_media_go
        { db := dbCats, category_ids := [1], files_uploaded := 1,
          next_id := 201, now := 9 }
        [.file (some "b.png") "image/png",
         .file (some "c.mp3") "audio/mpeg"] =
      ({ db := dbCats, category_ids := [1], files_uploaded := 1,
         next_id := 201, now := 9 },
       .error (.badRequest
         "Cannot upload image files to a audio-only category (id 1). File \x27b.png\x27 is type \x27image\x27.")) ∧
    ∃ msg,
      (AppError.badRequest
        "Cannot upload image files to a audio-only category (id 1). File \x27b.png\x27 is type \x27image\x27.") =
        .badRequest msg :=
  upload_media_mismatch_aborts_request _ "b.png" "image/png" _ _
    (by decide) (by decide)

/-- C2 counterexample: in the batch `mismatchFields` only the second of three
files mismatches the single supplied audio category, yet the request fails as
a whole with the file's BadRequest error, and the third (matching) file is
never uploaded — only the first file made it into the database.  The claim
"only that file is rejected ... not the whole batch" would instead demand a
success response with both a.mp3 and c.mp3 stored. -/
theorem upload_media_rejects_whole_batch :
    (upload_media dbCats 9 200 mismatchFields).2 =
      .error (.badRequest
        "Cannot upload image files to a audio-only category (id 1). File \x27b.png\x27 is type \x27image\x27.") ∧
    (upload_media dbCats 9 200 mismatchFields).1.mediaFiles.map
        MediaFile.filename = ["a.mp3"] := by
  constructor
  · decide
  · decide

/-- Stamping `accessed_at` touches only `test_users`, so the media files
linked to a test are unchanged. -/
theorem linkedMediaFiles_stampAccessed (db : DB) (now : Nat)
    (tu_id test_id : Int) :
    linkedMediaFiles (stampAccessed db now tu_id) test_id =
      linkedMediaFiles db test_id := rfl

/-- C4: `get_test_by_token` fails NotFound on an unknown token; fails Gone as
soon as `completed_at` is set, before any other state rule; fails Forbidden
when the parent test is closed even though the participant never completed;
and otherwise returns the test with the distinct media files linked to the
test's category, ordered by upload time ascending.  (The `accessed_at` stamp
is the only database change.) -/
theorem get_test_by_token_spec (db : DB) (now : Nat) (token : String) :
    (db.testUsers.find? (fun u => u.one_time_token == token) = none →
      get_test_by_token db now token = (db, .error .notFound)) ∧
    (∀ tu, db.testUsers.find? (fun u => u.one_time_token == token) = some tu →
      (tu.completed_at.isSome = true →
        get_test_by_token db now token = (db, .error .gone)) ∧
      (tu.completed_at = none →
        ∀ test, (stampAccessed db now tu.id).tests.find?
            (fun t => t.id == tu.test_id) = some test →
          (test.status = "closed" →
            get_test_by_token db now token =
              (stampAccessed db now tu.id, .error .forbidden)) ∧
          (test.status ≠ "closed" →
            ∃ ms, get_test_by_token db now token =
                (stampAccessed db now tu.id,
                 .ok { test := test, media_files := ms }) ∧
              List.Sorted uploadedLE ms ∧
              (∀ mf, mf ∈ ms ↔ mf ∈ linkedMediaFiles db tu.test_id) ∧
              (db.mediaFiles.Nodup → ms.Nodup)))) := by
  refine ⟨?_, ?_⟩
  · intro h
    simp only [get_test_by_token, h]
  · intro tu hfind
    refine ⟨?_, ?_⟩
    · intro hdone
      simp only [get_test_by_token, hfind, if_pos hdone]
    · intro hnone test htest
      have hns : tu.completed_at.isSome = false := by rw [hnone]; rfl
      refine ⟨?_, ?_⟩
      · intro hclosed
        simp [get_test_by_token, hfind, hns, htest, hclosed]
      · intro hopen2
        refine ⟨List.insertionSort uploadedLE (linkedMediaFiles db tu.test_id),
          ?_, List.sorted_insertionSort uploadedLE _, fun mf => by simp, ?_⟩
        · simp [get_test_by_token, hfind, hns, htest, hopen2,
            linkedMediaFiles_stampAccessed]
        · intro hnd
          exact ((List.perm_insertionSort uploadedLE
            (linkedMediaFiles db tu.test_id)).symm.nodup
              (List.Nodup.filter _ hnd))

/-- Witness for C4 on `exDB`: unknown token → NotFound; completed session t3 →
Gone; t2 whose parent test is closed (never completed) → Forbidden; t1 →
success. -/
theorem get_test_by_token_spec_witness :
    get_test_by_token exDB 7 "zz" = (exDB, .error .notFound) ∧
    get_test_by_token exDB 7 "t3" = (exDB, .error .gone) ∧
    get_test_by_token exDB 7 "t2" =
      (stampAccessed exDB 7 2, .error .forbidden) ∧
    (get_test_by_token exDB 7 "t1").2.isOk = true := by
  refine ⟨?_, ?_, ?_, ?_⟩
  · exact (get_test_by_token_spec exDB 7 "zz").1 rfl
  · exact ((get_test_by_token_spec exDB 7 "t3").2 exUserDone rfl).1 rfl
  · exact (((get_test_by_token_spec exDB 7 "t2").2 exUserClosed rfl).2 rfl
      exTestClosed rfl).1 rfl
  · obtain ⟨ms, heq, -, -, -⟩ :=
      (((get_test_by_token_spec exDB 7 "t1").2 exUserOpen rfl).2 rfl
        exTestOpen rfl).2 (by decide)
    rw [heq]
    rfl

/-- Filtering by the predicate a successful `find?` used cannot give the
empty list. -/
theorem filter_length_ne_zero_of_found {α : Type} {p : α → Bool}
    {l : List α} {a : α} (h : l.find? p = some a) :
    (l.filter p).length ≠ 0 := by
  have hmem : a ∈ l.filter p :=
    List.mem_filter.mpr ⟨List.mem_of_find?_eq_some h, List.find?_some h⟩
  intro h0
  rw [List.length_eq_zero] at h0
  rw [h0] at hmem
  cases hmem

/-- A known token makes `complete_test` succeed and stamp `completed_at = now`
on every row holding that token, whatever its previous value. -/
theorem complete_test_stamps (db : DB) (now : Nat) (token : String)
    (tu : TestUser)
    (hfind : db.testUsers.find? (fun u => u.one_time_token == token) =
      some tu) :
    (complete_test db now token).2 = .ok .noContent ∧
    ∀ u ∈ (complete_test db now token).1.testUsers,
      u.one_time_token = token → u.completed_at = some now := by
  have haff : ¬((((db.testUsers.filter (fun u =>
      u.one_time_token == token)).length == 0)) = true) := fun hc =>
    filter_length_ne_zero_of_found hfind (beq_iff_eq.mp hc)
  constructor
  · simp only [complete_test, hfind, if_neg haff]
  · intro u hu htok
    simp only [complete_test, hfind, if_neg haff] at hu
    rcases List.mem_map.mp hu with ⟨v, _, hvu⟩
    by_cases hvt : (v.one_time_token == token) = true
    · rw [if_pos hvt] at hvu
      cases hvu
      rfl
    · rw [if_neg hvt] at hvu
      cases hvu
      exact absurd (beq_iff_eq.mpr htok) hvt

/-- After `complete_test`, the token still resolves to a session row. -/
theorem complete_test_find? (db : DB) (now : Nat) (token : String)
    (tu : TestUser)
    (hfind : db.testUsers.find? (fun u => u.one_time_token == token) =
      some tu) :
    ∃ tu2, (complete_test db now token).1.testUsers.find?
      (fun u => u.one_time_token == token) = some tu2 := by
  have haff : ¬((((db.testUsers.filter (fun u =>
      u.one_time_token == token)).length == 0)) = true) := fun hc =>
    filter_length_ne_zero_of_found hfind (beq_iff_eq.mp hc)
  have hpf : ((fun u : TestUser => u.one_time_token == token) ∘ (fun u =>
      if u.one_time_token == token then { u with completed_at := some now }
      else u)) = fun u : TestUser => u.one_time_token == token := by
    funext u
    simp only [Function.comp_apply]
    by_cases hc : (u.one_time_token == token) = true
    · rw [if_pos hc]
    · rw [if_neg hc]
  have htok : (tu.one_time_token == token) = true :=
    @List.find?_some TestUser (fun u => u.one_time_token == token) tu
      db.testUsers hfind
  refine ⟨{ tu with completed_at := some now }, ?_⟩
  simp only [complete_test, hfind, if_neg haff]
  rw [List.find?_map, hpf, hfind, Option.map_some', if_pos htok]

/-- C6: `complete_test` fails NotFound on an unknown token; on a known token
it stamps `completed_at = now` unconditionally and answers NoContent, and
invoking it again succeeds the same way, re-stamping with the later clock —
so an already-completed session yields no error and stays terminal. -/
theorem complete_test_idempotent (db : DB) (now now2 : Nat) (token : String) :
    (db.testUsers.find? (fun u => u.one_time_token == token) = none →
      complete_test db now token = (db, .error .notFound)) ∧
    (∀ tu, db.testUsers.find? (fun u => u.one_time_token == token) = some tu →
      (complete_test db now token).2 = .ok .noContent ∧
      (∀ u ∈ (complete_test db now token).1.testUsers,
        u.one_time_token = token → u.completed_at = some now) ∧
      (complete_test (complete_test db now token).1 now2 token).2 =
        .ok .noContent ∧
      ∀ u ∈ (complete_test (complete_test db now token).1 now2
          token).1.testUsers,
        u.one_time_token = token → u.completed_at = some now2) := by
  refine ⟨?_, ?_⟩
  · intro h
    simp only [complete_test, h]
  · intro tu hfind
    obtain ⟨h1, h2⟩ := complete_test_stamps db now token tu hfind
    obtain ⟨tu2, hfind2⟩ := complete_test_find? db now token tu hfind
    obtain ⟨h3, h4⟩ := complete_test_stamps _ now2 token tu2 hfind2
    exact ⟨h1, h2, h3, h4⟩

/-- Witness for C6: completing session t1 twice succeeds both times; an
unknown token fails NotFound. -/
theorem complete_test_idempotent_witness :
    complete_test exDB 5 "zz" = (exDB, .error .notFound) ∧
    (complete_test exDB 5 "t1").2 = .ok .noContent ∧
    (complete_test (complete_test exDB 5 "t1").1 6 "t1").2 =
      .ok .noContent := by
  refine ⟨(complete_test_idempotent exDB 5 6 "zz").1 rfl, ?_, ?_⟩
  · exact ((complete_test_idempotent exDB 5 6 "t1").2 exUserOpen rfl).1
  · exact ((complete_test_idempotent exDB 5 6 "t1").2 exUserOpen rfl).2.2.1

/-- C7: `submit_rating` never looks at `completed_at` — a participant whose
session is already completed can still submit a valid rating as long as the
parent test is open. -/
theorem submit_rating_ignores_completed (db : DB) (now : Nat) (new_id : Int)
    (token : String) (payload : RatingRequest) (tu : TestUser) (test : Test)
    (t0 : Nat)
    (hfind : db.testUsers.find? (fun u => u.one_time_token == token) = some tu)
    (_hcomp : tu.completed_at = some t0)
    (htest : db.tests.find? (fun t => t.id == tu.test_id) = some test)
    (hopen : test.status ≠ "closed")
    (h0 : 0 ≤ payload.stars) (h5 : payload.stars ≤ 5)
    (hstep : |((roundHalfAway (payload.stars * 2) : ℚ)) / 2 - payload.stars|
      ≤ 1/100) :
    ∃ r, (submit_rating db now new_id token payload).2 = .ok r := by
  obtain ⟨r, hr, -⟩ := submit_rating_success db now new_id token payload tu
    test hfind htest hopen h0 h5 hstep
  exact ⟨r, by rw [hr]⟩

/-- Witness for C7: session t3 has `completed_at = some 2`, its parent test is
open, and submitting 4 stars still succeeds. -/
theorem submit_rating_ignores_completed_witness :
    (submit_rating exDB 9 60 "t3"
      { media_file_id := 100, stars := 4, comment := some "late" }).2.isOk =
      true := by
  obtain ⟨r, hr⟩ := submit_rating_ignores_completed exDB 9 60 "t3"
    { media_file_id := 100, stars := 4, comment := some "late" }
    exUserDone exTestOpen 2 rfl rfl rfl (by decide) (by decide) (by decide)
    (by decide)
  rw [hr]
  rfl

/-- After an upsert there is at least one row for the key; the number of rows
for the key is unchanged when it was already positive. -/
theorem upsertRating_filter_length (rs : List Rating) (tu_id : Int)
    (payload : RatingRequest) (new_id : Int) (now : Nat) :
    ((upsertRating rs tu_id payload new_id now).filter (fun r =>
        r.test_user_id == tu_id &&
          r.media_file_id == payload.media_file_id)).length =
      if (rs.filter (fun r => r.test_user_id == tu_id &&
          r.media_file_id == payload.media_file_id)).length = 0 then 1
      else (rs.filter (fun r => r.test_user_id == tu_id &&
          r.media_file_id == payload.media_file_id)).length := by
  rw [upsertRating]
  split
  case isTrue h =>
    rw [List.filter_map]
    have hcong : rs.filter ((fun r => r.test_user_id == tu_id &&
        r.media_file_id == payload.media_file_id) ∘ (fun r =>
          if r.test_user_id == tu_id &&
              r.media_file_id == payload.media_file_id then
            { r with stars := payload.stars, comment := payload.comment,
                     rated_at := now }
          else r)) = rs.filter (fun r => r.test_user_id == tu_id &&
        r.media_file_id == payload.media_file_id) := by
      apply List.filter_congr
      intro x _
      simp only [Function.comp_apply]
      by_cases hpx : (x.test_user_id == tu_id &&
          x.media_file_id == payload.media_file_id) = true
      · rw [if_pos hpx]
      · rw [if_neg hpx]
    rw [hcong, List.length_map]
    have hne : (rs.filter (fun r => r.test_user_id == tu_id &&
        r.media_file_id == payload.media_file_id)).length ≠ 0 := by
      rcases List.any_eq_true.mp h with ⟨x, hx, hpx⟩
      have hmem : x ∈ rs.filter (fun r => r.test_user_id == tu_id &&
          r.media_file_id == payload.media_file_id) :=
        List.mem_filter.mpr ⟨hx, hpx⟩
      intro h0
      rw [List.length_eq_zero] at h0
      rw [h0] at hmem
      cases hmem
    rw [if_neg hne]
  case isFalse h =>
    rw [List.filter_append]
    have h1 : rs.filter (fun r => r.test_user_id == tu_id &&
        r.media_file_id == payload.media_file_id) = [] := by
      rw [List.filter_eq_nil_iff]
      intro a ha hpa
      exact h (List.any_eq_true.mpr ⟨a, ha, hpa⟩)
    rw [h1]
    simp

/-- C5 (upsert law): submitting a rating twice for the same medium from the
same session — under the schema's uniqueness of (test_user_id, media_file_id)
— leaves exactly one rating row for that pair, and it carries the stars and
comment of the second submission with `rated_at` refreshed to the second
clock. -/
theorem submit_rating_upsert_law (db : DB) (now1 now2 : Nat) (id1 id2 : Int)
    (token : String) (p1 p2 : RatingRequest) (tu : TestUser) (test : Test)
    (hfind : db.testUsers.find? (fun u => u.one_time_token == token) = some tu)
    (htest : db.tests.find? (fun t => t.id == tu.test_id) = some test)
    (hopen : test.status ≠ "closed")
    (hmf : p1.media_file_id = p2.media_file_id)
    (h0a : 0 ≤ p1.stars) (h5a : p1.stars ≤ 5)
    (hstepa : |((roundHalfAway (p1.stars * 2) : ℚ)) / 2 - p1.stars| ≤ 1/100)
    (h0b : 0 ≤ p2.stars) (h5b : p2.stars ≤ 5)
    (hstepb : |((roundHalfAway (p2.stars * 2) : ℚ)) / 2 - p2.stars| ≤ 1/100)
    (huniq : (db.ratings.filter (fun r => r.test_user_id == tu.id &&
        r.media_file_id == p2.media_file_id)).length ≤ 1) :
    ∃ r2, (submit_rating (submit_rating db now1 id1 token p1).1 now2 id2
        token p2).2 = .ok r2 ∧
      ((submit_rating (submit_rating db now1 id1 token p1).1 now2 id2
          token p2).1.ratings.filter (fun r => r.test_user_id == tu.id &&
            r.media_file_id == p2.media_file_id)).length = 1 ∧
      ∀ r ∈ (submit_rating (submit_rating db now1 id1 token p1).1 now2 id2
          token p2).1.ratings.filter (fun r => r.test_user_id == tu.id &&
            r.media_file_id == p2.media_file_id),
        r.stars = p2.stars ∧ r.comment = p2.comment ∧ r.rated_at = now2 := by
  obtain ⟨r1, hr1, -⟩ := submit_rating_success db now1 id1 token p1 tu test
    hfind htest hopen h0a h5a hstepa
  obtain ⟨r2, hr2, -⟩ := submit_rating_success
    { db with ratings := upsertRating db.ratings tu.id p1 id1 now1 }
    now2 id2 token p2 tu test hfind htest hopen h0b h5b hstepb
  have hlen1 := upsertRating_filter_length db.ratings tu.id p1 id1 now1
  rw [hmf] at hlen1
  have hlen2 := upsertRating_filter_length
    (upsertRating db.ratings tu.id p1 id1 now1) tu.id p2 id2 now2
  refine ⟨r2, ?_, ?_, ?_⟩
  · rw [hr1]
    show (submit_rating
      { db with ratings := upsertRating db.ratings tu.id p1 id1 now1 }
      now2 id2 token p2).2 = .ok r2
    rw [hr2]
  · rw [hr1]
    show ((submit_rating
        { db with ratings := upsertRating db.ratings tu.id p1 id1 now1 }
        now2 id2 token p2).1.ratings.filter (fun r =>
          r.test_user_id == tu.id &&
            r.media_file_id == p2.media_file_id)).length = 1
    rw [hr2]
    show ((upsertRating (upsertRating db.ratings tu.id p1 id1 now1) tu.id p2
        id2 now2).filter (fun r => r.test_user_id == tu.id &&
          r.media_file_id == p2.media_file_id)).length = 1
    rw [hlen2, hlen1]
    split_ifs <;> omega
  · intro r hr
    rw [hr1] at hr
    replace hr : r ∈ (submit_rating
        { db with ratings := upsertRating db.ratings tu.id p1 id1 now1 }
        now2 id2 token p2).1.ratings.filter (fun x =>
          x.test_user_id == tu.id &&
            x.media_file_id == p2.media_file_id) := hr
    rw [hr2] at hr
    replace hr : r ∈ (upsertRating (upsertRating db.ratings tu.id p1 id1 now1)
        tu.id p2 id2 now2).filter (fun x => x.test_user_id == tu.id &&
          x.media_file_id == p2.media_file_id) := hr
    have hm := List.mem_filter.mp hr
    exact upsertRating_mem_key _ tu.id p2 id2 now2 r hm.1 hm.2

/-- Witness for C5: participant t1 rates media 100 with 2 stars, then again
with 4.5 stars and a comment; exactly one row remains and it shows 4.5 stars
rated at the second clock. -/
theorem submit_rating_upsert_law_witness :
    (submit_rating (submit_rating exDB 3 70 "t1"
        { media_file_id := 100, stars := 2, comment := none }).1 4 71 "t1"
        { media_file_id := 100, stars := 9/2,
          comment := some "better" }).2.isOk = true ∧
    ((submit_rating (submit_rating exDB 3 70 "t1"
        { media_file_id := 100, stars := 2, comment := none }).1 4 71 "t1"
        { media_file_id := 100, stars := 9/2,
          comment := some "better" }).1.ratings.filter (fun r =>
          r.test_user_id == 1 && r.media_file_id == 100)).length = 1 ∧
    ((submit_rating (submit_rating exDB 3 70 "t1"
        { media_file_id := 100, stars := 2, comment := none }).1 4 71 "t1"
        { media_file_id := 100, stars := 9/2,
          comment := some "better" }).1.ratings.filter (fun r =>
          r.test_user_id == 1 && r.media_file_id == 100)).all (fun r =>
        r.stars == 9/2 && r.rated_at == 4) = true := by
  obtain ⟨r2, h1, h2, h3⟩ := submit_rating_upsert_law exDB 3 4 70 71 "t1"
    { media_file_id := 100, stars := 2, comment := none }
    { media_file_id := 100, stars := 9/2, comment := some "better" }
    exUserOpen exTestOpen rfl rfl (by decide) rfl (by decide) (by decide)
    (by decide) (by decide) (by decide) (by decide) (by decide)
  refine ⟨by rw [h1]; rfl, h2, ?_⟩
  rw [List.all_eq_true]
  intro r hr
  obtain ⟨hs, -, hra⟩ := h3 r hr
  rw [hs, hra]
  decide

/-- C8: once a test is closed, `submit_rating` with any of its participants'
tokens and `delete_test_user` for any of its participants both fail Forbidden,
and the database — in particular the test's ratings and participants — is
returned unchanged. -/
theorem closed_test_invariant (db : DB) (now : Nat) (new_id : Int)
    (token : String) (payload : RatingRequest) (test_id user_id : Int) :
    (∀ tu test,
      db.testUsers.find? (fun u => u.one_time_token == token) = some tu →
      db.tests.find? (fun t => t.id == tu.test_id) = some test →
      test.status = "closed" →
      submit_rating db now new_id token payload = (db, .error .forbidden)) ∧
    (∀ test, db.tests.find? (fun t => t.id == test_id) = some test →
      test.status = "closed" →
      delete_test_user db test_id user_id = (db, .error .forbidden)) := by
  refine ⟨?_, ?_⟩
  · intro tu test hfind htest hclosed
    exact submit_rating_closed db now new_id token payload tu test hfind
      htest hclosed
  · intro test htest hclosed
    simp only [delete_test_user, htest, if_pos hclosed]

/-- Witness for C8: test 2 is closed; its participant token t2 cannot rate and
participant 2 cannot be deleted, both Forbidden with the database unchanged. -/
theorem closed_test_invariant_witness :
    submit_rating exDB 9 80 "t2"
        { media_file_id := 100, stars := 4, comment := none } =
      (exDB, .error .forbidden) ∧
    delete_test_user exDB 2 2 = (exDB, .error .forbidden) := by
  refine ⟨?_, ?_⟩
  · exact (closed_test_invariant exDB 9 80 "t2"
      { media_file_id := 100, stars := 4, comment := none } 2 2).1
      exUserClosed exTestClosed rfl rfl rfl
  · exact (closed_test_invariant exDB 9 80 "t2"
      { media_file_id := 100, stars := 4, comment := none } 2 2).2
      exTestClosed rfl rfl

/-- C9: for an existing test, `delete_test` proceeds iff the requester is a
super admin or the test's creator: on success the test and its dependent
rows (test_categories, test_users and their ratings) are gone; otherwise the
call fails Forbidden and the whole database is unchanged. -/
theorem delete_test_authorization (db : DB) (claims : Claims) (test_id : Int)
    (test : Test)
    (hfind : db.tests.find? (fun t => t.id == test_id) = some test) :
    ((claims.is_super_admin = true ∨ test.created_by = some claims.sub) →
      (delete_test db claims test_id).2 = .ok .noContent ∧
      (∀ t ∈ (delete_test db claims test_id).1.tests, t.id ≠ test_id) ∧
      (∀ tc ∈ (delete_test db claims test_id).1.testCategories,
        tc.test_id ≠ test_id) ∧
      (∀ u ∈ (delete_test db claims test_id).1.testUsers,
        u.test_id ≠ test_id) ∧
      (∀ r ∈ (delete_test db claims test_id).1.ratings, ∀ u ∈ db.testUsers,
        u.test_id = test_id → r.test_user_id ≠ u.id)) ∧
    (¬(claims.is_super_admin = true ∨ test.created_by = some claims.sub) →
      delete_test db claims test_id = (db, .error .forbidden)) := by
  have hcond : ((claims.is_super_admin ||
      test.created_by == some claims.sub) = true) ↔
      (claims.is_super_admin = true ∨ test.created_by = some claims.sub) := by
    simp [Bool.or_eq_true]
  refine ⟨?_, ?_⟩
  · intro hauth
    have hb : (claims.is_super_admin ||
        test.created_by == some claims.sub) = true := hcond.mpr hauth
    have haff : ¬((((db.tests.filter (fun t => t.id == test_id)).length == 0))
        = true) := fun hc =>
      filter_length_ne_zero_of_found hfind (beq_iff_eq.mp hc)
    refine ⟨?_, ?_, ?_, ?_, ?_⟩
    · simp only [delete_test, hfind, if_pos hb, if_neg haff]
    · intro t ht
      simp only [delete_test, hfind, if_pos hb, if_neg haff] at ht
      have hm := List.mem_filter.mp ht
      simpa using hm.2
    · intro tc htc
      simp only [delete_test, hfind, if_pos hb, if_neg haff] at htc
      have hm := List.mem_filter.mp htc
      simpa using hm.2
    · intro u hu
      simp only [delete_test, hfind, if_pos hb, if_neg haff] at hu
      have hm := List.mem_filter.mp hu
      simpa using hm.2
    · intro r hr u hu hut hru
      simp only [delete_test, hfind, if_pos hb, if_neg haff] at hr
      have hm := List.mem_filter.mp hr
      have hany : ((db.testUsers.filter (fun v => v.test_id == test_id)).any
          (fun v => v.id == r.test_user_id)) = true :=
        List.any_eq_true.mpr ⟨u,
          List.mem_filter.mpr ⟨hu, beq_iff_eq.mpr hut⟩,
          beq_iff_eq.mpr hru.symm⟩
      rw [hany] at hm
      exact absurd hm.2 (by decide)
  · intro hnauth
    have hb : (claims.is_super_admin ||
        test.created_by == some claims.sub) = false := by
      cases hB : (claims.is_super_admin ||
          test.created_by == some claims.sub) with
      | false => rfl
      | true => exact absurd (hcond.mp hB) hnauth
    simp [delete_test, hfind, hb]

/-- Witness for C9 on `exDB`: a super admin can delete test 1; bob, neither
super admin nor its creator, gets Forbidden and the database is untouched. -/
theorem delete_test_authorization_witness :
    (delete_test exDB claimsSuper 1).2 = .ok .noContent ∧
    delete_test exDB claimsBob 1 = (exDB, .error .forbidden) := by
  refine ⟨?_, ?_⟩
  · exact ((delete_test_authorization exDB claimsSuper 1 exTestOpen rfl).1
      (Or.inl rfl)).1
  · exact (delete_test_authorization exDB claimsBob 1 exTestOpen rfl).2
      (by decide)

/-- C10: `submit_rating` can only fail with Unauthorized (unknown token),
Forbidden (closed parent test), BadRequest (invalid stars) or the
InternalServerError that wraps a storage-level failure; it performs no check
that the media file is linked to the test's category, so with a known token,
an open test and valid stars it succeeds for any media_file_id. -/
theorem submit_rating_error_modes (db : DB) (now : Nat) (new_id : Int)
    (token : String) (payload : RatingRequest) :
    (∀ e, (submit_rating db now new_id token payload).2 = .error e →
      (e = .unauthorized ∧
        db.testUsers.find? (fun u => u.one_time_token == token) = none) ∨
      e = .internalServerError ∨
      (e = .forbidden ∧ ∃ tu test,
        db.testUsers.find? (fun u => u.one_time_token == token) = some tu ∧
        db.tests.find? (fun t => t.id == tu.test_id) = some test ∧
        test.status = "closed") ∨
      (e = .badRequest ∧
        (payload.stars < 0 ∨ payload.stars > 5 ∨
          |((roundHalfAway (payload.stars * 2) : ℚ)) / 2 - payload.stars|
            > 1/100))) ∧
    (∀ tu test,
      db.testUsers.find? (fun u => u.one_time_token == token) = some tu →
      db.tests.find? (fun t => t.id == tu.test_id) = some test →
      test.status ≠ "closed" →
      0 ≤ payload.stars → payload.stars ≤ 5 →
      |((roundHalfAway (payload.stars * 2) : ℚ)) / 2 - payload.stars|
        ≤ 1/100 →
      ∃ r, (submit_rating db now new_id token payload).2 = .ok r) := by
  refine ⟨?_, ?_⟩
  · intro e he
    cases hfind : db.testUsers.find? (fun u => u.one_time_token == token) with
    | none =>
      simp only [submit_rating, hfind] at he
      exact Or.inl ⟨((Except.error.injEq _ _).mp he).symm, rfl⟩
    | some tu =>
      cases htest : db.tests.find? (fun t => t.id == tu.test_id) with
      | none =>
        simp only [submit_rating, hfind, htest] at he
        exact Or.inr (Or.inl ((Except.error.injEq _ _).mp he).symm)
      | some test =>
        by_cases hclosed : test.status = "closed"
        · simp only [submit_rating, hfind, htest, if_pos hclosed] at he
          exact Or.inr (Or.inr (Or.inl
            ⟨((Except.error.injEq _ _).mp he).symm,
              tu, test, rfl, htest, hclosed⟩))
        · by_cases hrange : payload.stars < 0 ∨ payload.stars > 5
          · simp only [submit_rating, hfind, htest, if_neg hclosed,
              if_pos hrange] at he
            exact Or.inr (Or.inr (Or.inr
              ⟨((Except.error.injEq _ _).mp he).symm,
                hrange.elim Or.inl (fun h => Or.inr (Or.inl h))⟩))
          · by_cases htol : |((roundHalfAway (payload.stars * 2) : ℚ)) / 2 -
                payload.stars| > 1/100
            · simp only [submit_rating, hfind, htest, if_neg hclosed,
                if_neg hrange, if_pos htol] at he
              exact Or.inr (Or.inr (Or.inr
                ⟨((Except.error.injEq _ _).mp he).symm,
                  Or.inr (Or.inr htol)⟩))
            · push_neg at hrange
              obtain ⟨r, hr, -⟩ := submit_rating_success db now new_id token
                payload tu test hfind htest hclosed hrange.1 hrange.2
                (not_lt.mp htol)
              rw [hr] at he
              exact Except.noConfusion he
  · intro tu test hfind htest hopen h0 h5 hstep
    obtain ⟨r, hr, -⟩ := submit_rating_success db now new_id token payload tu
      test hfind htest hopen h0 h5 hstep
    exact ⟨r, by rw [hr]⟩

/-- Witness for C10: media file 999 exists in `exDB` but is linked to no
category, hence not to test 1's category; participant t1 of the open test 1
still rates it successfully. -/
theorem submit_rating_error_modes_witness :
    (submit_rating exDB 9 61 "t1"
      { media_file_id := 999, stars := 4, comment := none }).2.isOk = true ∧
    (linkedMediaFiles exDB 1).all (fun mf => mf.id != 999) = true ∧
    exDB.mediaFiles.any (fun mf => mf.id == 999) = true := by
  refine ⟨?_, by decide, by decide⟩
  obtain ⟨r, hr⟩ := (submit_rating_error_modes exDB 9 61 "t1"
    { media_file_id := 999, stars := 4, comment := none }).2 exUserOpen
    exTestOpen rfl rfl (by decide) (by decide) (by decide) (by decide)
  rw [hr]
  rfl

end App
